import Mathlib

/-!
Shallow embedding of `src/beaconProcessor.py` (ognLogbook).

The per-aircraft flight-state machine (`RawWorker._processMessage`), the
worker loop (`RawWorker.run`), the queue snapshot/restore lifecycle
(`BeaconProcessor.__init__` / `BeaconProcessor.stop`) and the stats
reporter (`BeaconProcessor._printStats`) are translated into pure Lean
functions.  Python floats are modelled by rationals, timestamps by
integers, and the Redis key-value store by a function from string keys to
optional (value, ttl) pairs.  External capabilities (the APRS parser, the
ground-speed threshold table, the nearest-airfield resolver and the
elevation lookup) are parameters gathered in an `Env` structure; a lookup
that "fails or returns nothing" is modelled by an `Option` result.
-/

namespace OgnLogbook

/-- `Status` from `dataStructures.py` as used by `beaconProcessor.py`:
a timestamp `[s]` and a state flag (0 = on ground, 1 = airborne,
-1 = unknown). -/
structure Status where
  ts : Int
  s : Int
  deriving DecidableEq, Repr

/-- A decoded APRS aircraft beacon: the fields of the parsed dictionary
that `RawWorker._processMessage` reads
(`address`, `address_type`, `aircraft_type`, `timestamp` (already rounded
to whole seconds), `latitude`, `longitude`, `altitude`, `ground_speed`). -/
structure Beacon where
  address : String
  addressType : Int
  aircraftType : Int
  ts : Int
  lat : Rat
  lon : Rat
  altitude : Rat
  groundSpeed : Rat
  deriving DecidableEq, Repr

/-- Result of `ogn.parser.parse` as consumed by `_processMessage`:
either an exception (`ParseError` or any other) was raised, or the
beacon is not of kind `aprs_aircraft`, or a usable aircraft beacon. -/
inductive ParseResult where
  | failure
  | notAircraft
  | ok (b : Beacon)
  deriving DecidableEq, Repr

/-- A value stored in Redis by the worker: either a serialized `Status`
(under `"<address>-status"`) or a smoothed ground speed
(under `"<address>-gs"`).  A value of the wrong shape under a key models
a string that fails to parse back. -/
inductive RVal where
  | status (st : Status)
  | gs (v : Rat)
  deriving DecidableEq, Repr

/-- The Redis key-value store: each present key holds a value and the
TTL (seconds) it was last given via `expire`. -/
def RStore : Type := String → Option (RVal × Nat)

/-- One row inserted into `logbook_events`
(the argument of `dbThread.addStatement`). -/
structure LogbookEvent where
  ts : Int
  address : String
  addressType : Int
  aircraftType : Int
  event : Char          -- 'L' = landing, 'T' = take-off
  lat : Rat
  lon : Rat
  locationIcao : String
  flightTime : Int
  deriving DecidableEq, Repr

/-- The state touched by `_processMessage`: the Redis store and the
append-only sink of SQL statements handed to `DbThread.addStatement`. -/
structure PState where
  store : RStore
  sink : List LogbookEvent

/-- The external capabilities of the worker:
`parse`, `getGroundSpeedThreshold`, `AirfieldManager().getNearest`,
`dao.geo.getElevation`, and the configured `REDIS_RECORD_EXPIRATION`. -/
structure Env where
  parse : String → ParseResult
  threshold : Int → Rat
  getNearest : Rat → Rat → Option String
  getElevation : Rat → Rat → Rat
  recordExpiration : Nat

/-- `RawWorker._saveToRedis`: `set` followed by `expire`. -/
def saveToRedis (store : RStore) (key : String) (v : RVal) (expire : Nat) :
    RStore :=
  fun k => if k = key then some (v, expire) else store k

/-- `self.redis.delete(key)`. -/
def deleteKey (store : RStore) (key : String) : RStore :=
  fun k => if k = key then none else store k

/-- Reading `"<address>-status"`: absent keys and values that
`Status.parse` rejects (a `ValueError` is caught) both leave
`prevStatus = None`. -/
def getStatus (store : RStore) (key : String) : Option Status :=
  match store key with
  | some (RVal.status st, _) => some st
  | _ => none

/-- Reading `"<address>-gs"`: `float(self._getFromRedis(gsKey, 0))`,
defaulting to 0 when the key is absent (or expired). -/
def getGs (store : RStore) (key : String) : Rat :=
  match store key with
  | some (RVal.gs v, _) => v
  | _ => 0

/-- `aircraftType not in [1, 2, 6, 8, 9]` — the fixed allow-list of
monitored aircraft types. -/
def aircraftTypeAllowed (t : Int) : Bool :=
  t ∈ ([1, 2, 6, 8, 9] : List Int)

/-- The instantaneous classification
`0 if groundSpeed < getGroundSpeedThreshold(aircraftType) else 1`. -/
def classify (env : Env) (aircraftType : Int) (speed : Rat) : Int :=
  if speed < env.threshold aircraftType then 0 else 1

/-- `RawWorker._processMessage` from the point where a decoded,
allow-listed aircraft beacon is in hand (source lines 92-160). -/
def processBeacon (env : Env) (b : Beacon) (st : PState) : PState :=
  let statusKey := b.address ++ "-status"
  let prevStatus := getStatus st.store statusKey
  let currentStatus : Status :=
    ⟨b.ts, classify env b.aircraftType b.groundSpeed⟩
  match prevStatus with
  | none =>
      -- no prior information: persist the baseline and stop
      { st with store :=
          (saveToRedis st.store statusKey (RVal.status currentStatus)
            env.recordExpiration) }
  | some prevStatus =>
      let gsKey := b.address ++ "-gs"
      let prevGroundSpeed := getGs st.store gsKey
      -- filter speed change a bit:
      let groundSpeed := b.groundSpeed * (2/10) + prevGroundSpeed * (8/10)
      let st :=
        { st with store :=
            (saveToRedis st.store gsKey (RVal.gs groundSpeed) 120) }
      let currentStatus : Status :=
        ⟨currentStatus.ts, classify env b.aircraftType groundSpeed⟩
      if currentStatus.s ≠ prevStatus.s then
        match env.getNearest b.lat b.lon with
        | none => st
        | some icaoLocation =>
            if currentStatus.s = 0 then
              -- event 'L' (landing)
              let flightTime := currentStatus.ts - prevStatus.ts
              if flightTime < 120 then st
              else
                let elev := env.getElevation b.lat b.lon
                let agl := b.altitude - elev
                if agl > 150 then st
                else
                  let st := { st with store := deleteKey st.store statusKey }
                  { st with sink :=
                      (st.sink ++
                       [⟨b.ts, b.address, b.addressType, b.aircraftType, 'L',
                         b.lat, b.lon, icaoLocation, flightTime⟩]) }
            else
              -- event 'T' (take-off): flightTime stays 0
              let st := { st with store :=
                  (saveToRedis st.store statusKey (RVal.status currentStatus)
                    env.recordExpiration) }
              { st with sink :=
                  (st.sink ++
                   [⟨b.ts, b.address, b.addressType, b.aircraftType, 'T',
                     b.lat, b.lon, icaoLocation, 0⟩]) }
      else st

/-- `RawWorker._processMessage` in full: parse, drop non-aircraft
beacons and non-allow-listed aircraft types, then run the state
machine. -/
def processMessage (env : Env) (raw : String) (st : PState) : PState :=
  match env.parse raw with
  | ParseResult.failure => st
  | ParseResult.notAircraft => st
  | ParseResult.ok b =>
      if aircraftTypeAllowed b.aircraftType then processBeacon env b st
      else st

/-- Processing a sequence of raw messages in order. -/
def processAll (env : Env) (msgs : List String) (st : PState) : PState :=
  msgs.foldl (fun s m => processMessage env m s) st

/-! ## The worker loop (`RawWorker.run`) -/

/-- The state visible to one `RawWorker`: its stop flag `doRun`, its raw
queue, and the processing state (Redis + event sink). -/
structure WState where
  doRun : Bool
  queue : List String
  ps : PState

/-- One iteration of the `while self.doRun` loop of `RawWorker.run`:
`none` means the loop has exited; an empty queue raises `Empty`, which is
caught and answered with `time.sleep(1)`; otherwise the popped message is
processed (decode and lookup failures inside `_processMessage` end in a
plain `return`, so the iteration always completes). -/
def workerStep (env : Env) (w : WState) : Option WState :=
  if w.doRun then
    some (match w.queue with
      | [] => w
      | m :: rest => { w with queue := rest, ps := processMessage env m w.ps })
  else none

/-! ## Lifecycle: queue snapshot on `stop`, restore in `__init__` -/

/-- The in-memory shard queues `rawQueueOGN`, `rawQueueFLR`,
`rawQueueICA` (front of the queue first). -/
structure Queues where
  ogn : List String
  flr : List String
  ica : List String
  deriving DecidableEq, Repr

/-- The Redis lists used for queue snapshots, one per shard key. -/
def RQueueStore : Type := String → List String

/-- `self.redis.rpush(key, item)`: append at the right end. -/
def rpush (r : RQueueStore) (k : String) (item : String) : RQueueStore :=
  fun q => if q = k then r q ++ [item] else r q

/-- `BeaconProcessor.stop`, inner loop for one shard:
`for item in list(queue.queue): self.redis.rpush(key, item)`. -/
def flushQueue (r : RQueueStore) (k : String) (items : List String) :
    RQueueStore :=
  items.foldl (fun r it => rpush r k it) r

/-- `BeaconProcessor.stop`: snapshot all three shard queues under their
keys, in queue order. -/
def stopSnapshot (qs : Queues) (r : RQueueStore) : RQueueStore :=
  flushQueue
    (flushQueue (flushQueue r "rawQueueOGN" qs.ogn) "rawQueueFLR" qs.flr)
    "rawQueueICA" qs.ica

/-- `BeaconProcessor.__init__`, inner loop for one shard:
`while True: item = lpop(key); if not item: break; queue.put(item)`.
Returns the restored in-memory queue and what is left of the Redis list.
`lpop` on an exhausted list returns `None` (falsy), ending the loop; an
empty string popped from the list is falsy too and also ends the loop,
after having been popped. -/
def drainLoop (l : List String) (acc : List String) :
    List String × List String :=
  match l with
  | [] => (acc, [])
  | item :: rest =>
      if item = "" then (acc, rest) else drainLoop rest (acc ++ [item])

/-- `BeaconProcessor.__init__`: restore the three shard queues (initially
empty in a fresh process) from their Redis list keys. -/
def restoreStartup (r : RQueueStore) : Queues × RQueueStore :=
  let ogn := drainLoop (r "rawQueueOGN") []
  let flr := drainLoop (r "rawQueueFLR") []
  let ica := drainLoop (r "rawQueueICA") []
  (⟨ogn.1, flr.1, ica.1⟩,
   fun q =>
     if q = "rawQueueOGN" then ogn.2
     else if q = "rawQueueFLR" then flr.2
     else if q = "rawQueueICA" then ica.2
     else r q)

/-! ## Stats reporter (`BeaconProcessor._printStats`) -/

/-- The reporter's mutable fields `startTime` and `numEnquedTasks`. -/
structure StatsState where
  startTime : Rat
  numEnquedTasks : Nat
  deriving DecidableEq, Repr

/-- `BeaconProcessor._printStats`, called on each enqueue.  Arguments:
the current time and the three shard queue depths.  Returns the updated
reporter state and, when the backlog alert fires, the published
`(rate per minute, queued)` pair handed to the two `mosquitto_pub`
calls (`none` when nothing is published). -/
def printStats (now : Rat) (qOgn qFlr qIca : Nat) (s : StatsState) :
    StatsState × Option (Rat × Nat) :=
  let tDiff := now - s.startTime
  if tDiff ≥ 60 then
    let numTasksPerMin := (s.numEnquedTasks : Rat) / tDiff * 60
    let numQueuedTasks := qOgn + qFlr + qIca
    let s : StatsState := ⟨now, 0⟩
    if numQueuedTasks ≥ 400 then (s, some (numTasksPerMin, numQueuedTasks))
    else (s, none)
  else (s, none)

/-! ## Concrete instances used by counterexamples and witnesses -/

/-- A concrete environment: every aircraft type has ground-speed
threshold 10, the nearest airfield is always `LKKA`, the terrain
elevation is 0 everywhere, and the record expiration is 3600 s. -/
def env10 : Env :=
  { parse := fun _ => ParseResult.failure
    threshold := fun _ => 10
    getNearest := fun _ _ => some "LKKA"
    getElevation := fun _ _ => 0
    recordExpiration := 3600 }

/-- A beacon of aircraft `A1` (glider, ICAO address type) at a fixed
position and altitude 100 m, with the given timestamp and ground
speed. -/
def mkB (t : Int) (sp : Rat) : Beacon :=
  ⟨"A1", 2, 1, t, 49, 16, 100, sp⟩

/-- A store holding only the prior status `Ground` at time 0 for `A1`. -/
def stGround : PState :=
  { store := fun k =>
      if k = "A1-status" then some (RVal.status ⟨0, 0⟩, 3600) else none
    sink := [] }

/-- Nine steady readings at 9.9 (below the threshold 10) followed by a
lone spike to 20 (twice the threshold), processed for an address whose
stored prior status is Ground. -/
def spikeRun : PState :=
  List.foldl (fun s b => processBeacon env10 b s) stGround
    [mkB 1 (99/10), mkB 2 (99/10), mkB 3 (99/10), mkB 4 (99/10),
     mkB 5 (99/10), mkB 6 (99/10), mkB 7 (99/10), mkB 8 (99/10),
     mkB 9 (99/10), mkB 10 20]

/-! ## Helper lemmas -/

theorem saveToRedis_self (store : RStore) (key : String) (v : RVal)
    (e : Nat) : saveToRedis store key v e key = some (v, e) := by
  simp [saveToRedis]

theorem saveToRedis_other (store : RStore) (key k : String) (v : RVal)
    (e : Nat) (h : k ≠ key) : saveToRedis store key v e k = store k := by
  simp [saveToRedis, h]

theorem deleteKey_self (store : RStore) (key : String) :
    deleteKey store key key = none := by
  simp [deleteKey]

theorem deleteKey_other (store : RStore) (key k : String) (h : k ≠ key) :
    deleteKey store key k = store k := by
  simp [deleteKey, h]

/-- The two Redis keys of one address never collide. -/
theorem statusKey_ne_gsKey (a : String) :
    a ++ "-status" ≠ a ++ "-gs" := by
  intro h
  have := congrArg String.length h
  simp only [String.length_append] at this
  exact absurd (Nat.add_left_cancel this) (by decide)

/-- With no prior status, processing persists the instantaneous
classification as the baseline and does nothing else. -/
theorem processBeacon_baseline (env : Env) (b : Beacon) (st : PState)
    (hs : getStatus st.store (b.address ++ "-status") = none) :
    processBeacon env b st =
      { store := saveToRedis st.store (b.address ++ "-status")
          (RVal.status ⟨b.ts, classify env b.aircraftType b.groundSpeed⟩)
          env.recordExpiration
        sink := st.sink } := by
  simp only [processBeacon, hs]

/-- The takeoff branch: smoothed classification Airborne, prior state
not Airborne, airfield resolvable. -/
theorem processBeacon_takeoff (env : Env) (b : Beacon) (st : PState)
    (prev : Status) (icao : String)
    (hs : getStatus st.store (b.address ++ "-status") = some prev)
    (hnear : env.getNearest b.lat b.lon = some icao)
    (hc : classify env b.aircraftType
        (b.groundSpeed * (2/10) + getGs st.store (b.address ++ "-gs") * (8/10))
        = 1)
    (hne : prev.s ≠ 1) :
    processBeacon env b st =
      { store := saveToRedis
          (saveToRedis st.store (b.address ++ "-gs")
            (RVal.gs (b.groundSpeed * (2/10)
              + getGs st.store (b.address ++ "-gs") * (8/10))) 120)
          (b.address ++ "-status") (RVal.status ⟨b.ts, 1⟩)
          env.recordExpiration
        sink := st.sink ++ [⟨b.ts, b.address, b.addressType,
          b.aircraftType, 'T', b.lat, b.lon, icao, 0⟩] } := by
  simp only [processBeacon, hs, hc, hnear]
  rw [if_pos (Ne.symm hne)]
  simp

/-- The landing branch: smoothed classification Ground, prior state not
Ground, airfield resolvable, and both plausibility gates passed. -/
theorem processBeacon_landing (env : Env) (b : Beacon) (st : PState)
    (prev : Status) (icao : String)
    (hs : getStatus st.store (b.address ++ "-status") = some prev)
    (hnear : env.getNearest b.lat b.lon = some icao)
    (hc : classify env b.aircraftType
        (b.groundSpeed * (2/10) + getGs st.store (b.address ++ "-gs") * (8/10))
        = 0)
    (hne : prev.s ≠ 0)
    (hdur : 120 ≤ b.ts - prev.ts)
    (hagl : b.altitude - env.getElevation b.lat b.lon ≤ 150) :
    processBeacon env b st =
      { store := deleteKey
          (saveToRedis st.store (b.address ++ "-gs")
            (RVal.gs (b.groundSpeed * (2/10)
              + getGs st.store (b.address ++ "-gs") * (8/10))) 120)
          (b.address ++ "-status")
        sink := st.sink ++ [⟨b.ts, b.address, b.addressType,
          b.aircraftType, 'L', b.lat, b.lon, icao, b.ts - prev.ts⟩] } := by
  simp only [processBeacon, hs, hc, hnear]
  rw [if_pos (Ne.symm hne)]
  simp only [if_true]
  rw [if_neg (by omega)]
  rw [if_neg (by simp; linarith)]

/-- Case analysis of the sink after one beacon: either nothing was
appended, or exactly one event was, and an appended event is a Takeoff
with zero flight time or a Landing that passed both the minimum-duration
and the height-above-ground gate. -/
theorem processBeacon_sink_eq (env : Env) (b : Beacon) (st : PState) :
    (processBeacon env b st).sink = st.sink ∨
    ∃ e, (processBeacon env b st).sink = st.sink ++ [e] ∧
      ((e.event = 'T' ∧ e.flightTime = 0) ∨
       (e.event = 'L' ∧ 120 ≤ e.flightTime ∧
         b.altitude - env.getElevation b.lat b.lon ≤ 150)) := by
  simp only [processBeacon]
  cases hst : getStatus st.store (b.address ++ "-status") with
  | none => exact Or.inl rfl
  | some prev =>
      simp only []
      split
      · cases hnear : env.getNearest b.lat b.lon with
        | none => exact Or.inl rfl
        | some icao =>
            simp only []
            split
            · split
              · exact Or.inl rfl
              · split
                · exact Or.inl rfl
                · refine Or.inr ⟨_, rfl, Or.inr ⟨rfl, ?_, ?_⟩⟩
                  · show (120 : Int) ≤ _ - _
                    omega
                  · linarith
            · exact Or.inr ⟨_, rfl, Or.inl ⟨rfl, rfl⟩⟩
      · exact Or.inl rfl

/-- The same case analysis lifted through parsing. -/
theorem processMessage_sink_eq (env : Env) (raw : String) (st : PState) :
    (processMessage env raw st).sink = st.sink ∨
    ∃ b e, env.parse raw = ParseResult.ok b ∧
      (processMessage env raw st).sink = st.sink ++ [e] ∧
      ((e.event = 'T' ∧ e.flightTime = 0) ∨
       (e.event = 'L' ∧ 120 ≤ e.flightTime ∧
         b.altitude - env.getElevation b.lat b.lon ≤ 150)) := by
  unfold processMessage
  cases hp : env.parse raw with
  | failure => exact Or.inl rfl
  | notAircraft => exact Or.inl rfl
  | ok b =>
      by_cases ha : aircraftTypeAllowed b.aircraftType
      · simp only [ha, if_true]
        rcases processBeacon_sink_eq env b st with h | ⟨e, he, hprop⟩
        · exact Or.inl h
        · exact Or.inr ⟨b, e, rfl, he, hprop⟩
      · simp only [ha, if_false]
        exact Or.inl rfl

/-- C4: for every accepted beacon (parsed as an aircraft beacon with an
allow-listed aircraft type) whose address has no stored prior status,
processing persists the instantaneous classification of the raw ground
speed against the type-specific threshold under `"<address>-status"` and
returns without emitting any event and without writing the
smoothed-speed key. -/
theorem firstObservation_baseline (env : Env) (raw : String) (b : Beacon)
    (st : PState)
    (hp : env.parse raw = ParseResult.ok b)
    (ha : aircraftTypeAllowed b.aircraftType = true)
    (hs : getStatus st.store (b.address ++ "-status") = none) :
    (processMessage env raw st).store (b.address ++ "-status")
      = some (RVal.status ⟨b.ts, classify env b.aircraftType b.groundSpeed⟩,
          env.recordExpiration)
    ∧ (processMessage env raw st).store (b.address ++ "-gs")
      = st.store (b.address ++ "-gs")
    ∧ (processMessage env raw st).sink = st.sink := by
  have hpm : processMessage env raw st = processBeacon env b st := by
    simp [processMessage, hp, ha]
  rw [hpm, processBeacon_baseline env b st hs]
  refine ⟨saveToRedis_self _ _ _ _, ?_, rfl⟩
  exact saveToRedis_other _ _ _ _ _ (Ne.symm (statusKey_ne_gsKey b.address))

/-- C2: over any sequence of processed raw messages, no Landing event is
ever appended to the sink with `flightDurationSeconds < 120`: every
Landing row in the sink after processing has flight time at least 120,
provided the initial sink already had that property. -/
theorem landing_min_duration (env : Env) (msgs : List String) (st : PState)
    (h0 : ∀ e ∈ st.sink, e.event = 'L' → 120 ≤ e.flightTime) :
    ∀ e ∈ (processAll env msgs st).sink, e.event = 'L' →
      120 ≤ e.flightTime := by
  induction msgs generalizing st with
  | nil => exact h0
  | cons m ms ih =>
      have hstep : ∀ e ∈ (processMessage env m st).sink, e.event = 'L' →
          120 ≤ e.flightTime := by
        rcases processMessage_sink_eq env m st with h | ⟨b, e, _, he, hprop⟩
        · rw [h]; exact h0
        · rw [he]
          intro e' he' hL
          rcases List.mem_append.mp he' with h' | h'
          · exact h0 e' h' hL
          · have : e' = e := List.mem_singleton.mp h'
            subst this
            rcases hprop with ⟨hT, _⟩ | ⟨_, hd, _⟩
            · rw [hL] at hT; exact absurd hT (by decide)
            · exact hd
      exact ih (processMessage env m st) hstep

/-- C3: for every processed beacon, a Landing event is appended only
when the height above ground (beacon altitude minus the looked-up
elevation at the beacon's coordinates) is at most 150 m; a Ground
transition above that height appends nothing. -/
theorem landing_agl_gate (env : Env) (b : Beacon) (st : PState)
    (e : LogbookEvent)
    (happ : (processBeacon env b st).sink = st.sink ++ [e])
    (hL : e.event = 'L') :
    b.altitude - env.getElevation b.lat b.lon ≤ 150 := by
  rcases processBeacon_sink_eq env b st with h | ⟨e', he', hprop⟩
  · rw [happ] at h
    have := congrArg List.length h
    simp at this
  · rw [happ] at he'
    have : e = e' := by
      have := List.append_cancel_left he'
      simpa using this
    subst this
    rcases hprop with ⟨hT, _⟩ | ⟨_, _, hagl⟩
    · rw [hL] at hT; exact absurd hT (by decide)
    · exact hagl

/-- C1: for every processed beacon with a stored prior status, a smoothed
classification differing from it and a successful airfield lookup:
a transition to Airborne persists `(Airborne, beacon timestamp)` under
`"<address>-status"` and appends a Takeoff event with
`flightDurationSeconds = 0`; a transition to Ground that passes the
duration and height gates deletes the `"<address>-status"` entry and
appends a Landing event with `flightDurationSeconds` equal to the beacon
timestamp minus the prior status timestamp. -/
theorem transition_persistence (env : Env) (b : Beacon) (st : PState)
    (prev : Status) (icao : String)
    (hs : getStatus st.store (b.address ++ "-status") = some prev)
    (hnear : env.getNearest b.lat b.lon = some icao) :
    (classify env b.aircraftType
        (b.groundSpeed * (2/10) + getGs st.store (b.address ++ "-gs") * (8/10))
          = 1 →
      prev.s ≠ 1 →
      (processBeacon env b st).store (b.address ++ "-status")
        = some (RVal.status ⟨b.ts, 1⟩, env.recordExpiration)
      ∧ (processBeacon env b st).sink
        = st.sink ++ [⟨b.ts, b.address, b.addressType, b.aircraftType, 'T',
            b.lat, b.lon, icao, 0⟩])
    ∧ (classify env b.aircraftType
        (b.groundSpeed * (2/10) + getGs st.store (b.address ++ "-gs") * (8/10))
          = 0 →
      prev.s ≠ 0 →
      120 ≤ b.ts - prev.ts →
      b.altitude - env.getElevation b.lat b.lon ≤ 150 →
      (processBeacon env b st).store (b.address ++ "-status") = none
      ∧ (processBeacon env b st).sink
        = st.sink ++ [⟨b.ts, b.address, b.addressType, b.aircraftType, 'L',
            b.lat, b.lon, icao, b.ts - prev.ts⟩]) := by
  constructor
  · intro hc hne
    rw [processBeacon_takeoff env b st prev icao hs hnear hc hne]
    exact ⟨saveToRedis_self _ _ _ _, rfl⟩
  · intro hc hne hdur hagl
    rw [processBeacon_landing env b st prev icao hs hnear hc hne hdur hagl]
    exact ⟨deleteKey_self _ _, rfl⟩

/-- With a prior status present, the smoothed-speed key is overwritten
with the convex combination `0.2 × raw + 0.8 × prior` and TTL 120 in
every branch of the state machine. -/
theorem processBeacon_gs_write (env : Env) (b : Beacon) (st : PState)
    (prev : Status)
    (hs : getStatus st.store (b.address ++ "-status") = some prev) :
    (processBeacon env b st).store (b.address ++ "-gs")
      = some (RVal.gs (b.groundSpeed * (2/10)
          + getGs st.store (b.address ++ "-gs") * (8/10)), 120) := by
  have hne : (b.address ++ "-gs") ≠ (b.address ++ "-status") :=
    Ne.symm (statusKey_ne_gsKey b.address)
  simp only [processBeacon, hs]
  repeat' split
  all_goals simp [saveToRedis, deleteKey, hne]

/-- With a prior status present and no change of the smoothed
classification, nothing but the smoothed-speed key changes. -/
theorem processBeacon_no_transition (env : Env) (b : Beacon) (st : PState)
    (prev : Status)
    (hs : getStatus st.store (b.address ++ "-status") = some prev)
    (hc : classify env b.aircraftType
        (b.groundSpeed * (2/10) + getGs st.store (b.address ++ "-gs") * (8/10))
        = prev.s) :
    processBeacon env b st =
      { store := saveToRedis st.store (b.address ++ "-gs")
          (RVal.gs (b.groundSpeed * (2/10)
            + getGs st.store (b.address ++ "-gs") * (8/10))) 120
        sink := st.sink } := by
  simp only [processBeacon, hs]
  rw [if_neg (by simp [hc])]

/-- C5: for every processed beacon with a stored prior status, the new
smoothed speed is `0.2 × raw + 0.8 × prior` (with prior defaulting to 0
when the `"<address>-gs"` key is absent), it is persisted under
`"<address>-gs"` with a 120-second TTL, and the transition detection
uses the classification of this smoothed speed: if it equals the prior
state nothing else changes, and any appended event implies it differed
from the prior state. -/
theorem smoothing_update (env : Env) (b : Beacon) (st : PState)
    (prev : Status)
    (hs : getStatus st.store (b.address ++ "-status") = some prev) :
    (processBeacon env b st).store (b.address ++ "-gs")
      = some (RVal.gs (b.groundSpeed * (2/10)
          + getGs st.store (b.address ++ "-gs") * (8/10)), 120)
    ∧ (st.store (b.address ++ "-gs") = none →
        (processBeacon env b st).store (b.address ++ "-gs")
          = some (RVal.gs (b.groundSpeed * (2/10) + 0 * (8/10)), 120))
    ∧ (classify env b.aircraftType
          (b.groundSpeed * (2/10)
            + getGs st.store (b.address ++ "-gs") * (8/10)) = prev.s →
        (processBeacon env b st).sink = st.sink
        ∧ (processBeacon env b st).store (b.address ++ "-status")
            = st.store (b.address ++ "-status"))
    ∧ ((processBeacon env b st).sink ≠ st.sink →
        classify env b.aircraftType
          (b.groundSpeed * (2/10)
            + getGs st.store (b.address ++ "-gs") * (8/10)) ≠ prev.s) := by
  refine ⟨processBeacon_gs_write env b st prev hs, ?_, ?_, ?_⟩
  · intro h0
    rw [processBeacon_gs_write env b st prev hs]
    simp [getGs, h0]
  · intro hc
    rw [processBeacon_no_transition env b st prev hs hc]
    exact ⟨rfl, saveToRedis_other _ _ _ _ _ (statusKey_ne_gsKey b.address)⟩
  · intro hsink hc
    apply hsink
    rw [processBeacon_no_transition env b st prev hs hc]

/-- On any discarded transition (unresolvable airfield, short flight, or
too-high landing) the processed state is exactly the input state with
only the smoothed-speed key overwritten. -/
theorem processBeacon_discard (env : Env) (b : Beacon) (st : PState)
    (prev : Status)
    (hs : getStatus st.store (b.address ++ "-status") = some prev)
    (htrans : classify env b.aircraftType
        (b.groundSpeed * (2/10) + getGs st.store (b.address ++ "-gs") * (8/10))
        ≠ prev.s)
    (hdisc : env.getNearest b.lat b.lon = none
      ∨ (classify env b.aircraftType
          (b.groundSpeed * (2/10)
            + getGs st.store (b.address ++ "-gs") * (8/10)) = 0
         ∧ b.ts - prev.ts < 120)
      ∨ (classify env b.aircraftType
          (b.groundSpeed * (2/10)
            + getGs st.store (b.address ++ "-gs") * (8/10)) = 0
         ∧ b.altitude - env.getElevation b.lat b.lon > 150)) :
    processBeacon env b st =
      { store := saveToRedis st.store (b.address ++ "-gs")
          (RVal.gs (b.groundSpeed * (2/10)
            + getGs st.store (b.address ++ "-gs") * (8/10))) 120
        sink := st.sink } := by
  simp only [processBeacon, hs]
  rw [if_pos htrans]
  rcases hdisc with hnear | ⟨hc, hdur⟩ | ⟨hc, hagl⟩
  · rw [hnear]
  · cases hnear : env.getNearest b.lat b.lon with
    | none => rfl
    | some icao =>
        simp only [hc, if_true]
        rw [if_pos (by omega : b.ts - prev.ts < 120)]
  · cases hnear : env.getNearest b.lat b.lon with
    | none => rfl
    | some icao =>
        simp only [hc, if_true]
        by_cases hdur : b.ts - prev.ts < 120
        · rw [if_pos hdur]
        · rw [if_neg hdur, if_pos hagl]

/-- C10: for every processed beacon with a stored prior status whose
detected transition is discarded (airfield unresolvable, flight duration
under 120 s, or height above ground over 150 m), the
`"<address>-status"` entry and the sink are left exactly as they were,
but the `"<address>-gs"` key has been overwritten with the new smoothed
value: discarding a transition does not roll back the smoothing state. -/
theorem discard_frame (env : Env) (b : Beacon) (st : PState)
    (prev : Status)
    (hs : getStatus st.store (b.address ++ "-status") = some prev)
    (htrans : classify env b.aircraftType
        (b.groundSpeed * (2/10) + getGs st.store (b.address ++ "-gs") * (8/10))
        ≠ prev.s)
    (hdisc : env.getNearest b.lat b.lon = none
      ∨ (classify env b.aircraftType
          (b.groundSpeed * (2/10)
            + getGs st.store (b.address ++ "-gs") * (8/10)) = 0
         ∧ b.ts - prev.ts < 120)
      ∨ (classify env b.aircraftType
          (b.groundSpeed * (2/10)
            + getGs st.store (b.address ++ "-gs") * (8/10)) = 0
         ∧ b.altitude - env.getElevation b.lat b.lon > 150)) :
    (processBeacon env b st).store (b.address ++ "-status")
        = st.store (b.address ++ "-status")
    ∧ (processBeacon env b st).sink = st.sink
    ∧ (processBeacon env b st).store (b.address ++ "-gs")
        = some (RVal.gs (b.groundSpeed * (2/10)
            + getGs st.store (b.address ++ "-gs") * (8/10)), 120) := by
  rw [processBeacon_discard env b st prev hs htrans hdisc]
  refine ⟨saveToRedis_other _ _ _ _ _ (statusKey_ne_gsKey b.address), rfl, ?_⟩
  exact saveToRedis_self _ _ _ _

/-! ## The spike scenario (claim C6) -/

/-- The smoothed-speed sequence produced by readings of 9.9 starting
from an absent smoothed-speed key. -/
def gseq : Nat → Rat
  | 0 => 0
  | n + 1 => 99/10 * (2/10) + gseq n * (8/10)

/-- The processing state after `n` readings of 9.9 in the spike
scenario. -/
def cstate : Nat → PState
  | 0 => stGround
  | n + 1 =>
      { store := saveToRedis (cstate n).store "A1-gs"
          (RVal.gs (gseq (n + 1))) 120
        sink := [] }

theorem cstate_status (i : Nat) :
    getStatus (cstate i).store "A1-status" = some ⟨0, 0⟩ := by
  induction i with
  | zero => rfl
  | succ n ih =>
      show getStatus (saveToRedis (cstate n).store "A1-gs" _ _) _ = _
      unfold getStatus
      rw [saveToRedis_other _ _ _ _ _ (by decide)]
      exact ih

theorem cstate_gs (i : Nat) : getGs (cstate i).store "A1-gs" = gseq i := by
  cases i with
  | zero => rfl
  | succ n => rfl

theorem cstate_sink (i : Nat) : (cstate i).sink = [] := by
  cases i with
  | zero => rfl
  | succ n => rfl

theorem gseq_lt (i : Nat) : gseq i < 10 := by
  induction i with
  | zero => norm_num [gseq]
  | succ n ih =>
      show 99/10 * (2/10) + gseq n * (8/10) < 10
      linarith

/-- One below-threshold reading keeps the scenario in `cstate`. -/
theorem cstate_step (i : Nat) (t : Int) :
    processBeacon env10 (mkB t (99/10)) (cstate i) = cstate (i + 1) := by
  have hst : getStatus (cstate i).store
      ((mkB t (99/10)).address ++ "-status") = some ⟨0, 0⟩ := cstate_status i
  have hgs : getGs (cstate i).store
      ((mkB t (99/10)).address ++ "-gs") = gseq i := cstate_gs i
  have hc : classify env10 (mkB t (99/10)).aircraftType
      ((mkB t (99/10)).groundSpeed * (2/10)
        + getGs (cstate i).store ((mkB t (99/10)).address ++ "-gs") * (8/10))
      = (⟨0, 0⟩ : Status).s := by
    rw [hgs]
    show (if (99/10 : Rat) * (2/10) + gseq i * (8/10) < 10 then (0 : Int)
      else 1) = 0
    rw [if_pos (by have := gseq_lt i; linarith)]
  have h := processBeacon_no_transition env10 (mkB t (99/10)) (cstate i)
    ⟨0, 0⟩ hst hc
  rw [h, hgs, cstate_sink i]
  rfl

/-- The numeric value of the smoothed speed after the nine readings. -/
theorem gseq_nine : gseq 9 = 167407119/19531250 := by
  have e0 : gseq 0 = 0 := rfl
  have e1 : gseq 1 = 99/50 := by
    show 99/10 * (2/10) + gseq 0 * (8/10) = 99/50
    rw [e0]; norm_num
  have e2 : gseq 2 = 891/250 := by
    show 99/10 * (2/10) + gseq 1 * (8/10) = 891/250
    rw [e1]; norm_num
  have e3 : gseq 3 = 6039/1250 := by
    show 99/10 * (2/10) + gseq 2 * (8/10) = 6039/1250
    rw [e2]; norm_num
  have e4 : gseq 4 = 36531/6250 := by
    show 99/10 * (2/10) + gseq 3 * (8/10) = 36531/6250
    rw [e3]; norm_num
  have e5 : gseq 5 = 207999/31250 := by
    show 99/10 * (2/10) + gseq 4 * (8/10) = 207999/31250
    rw [e4]; norm_num
  have e6 : gseq 6 = 1141371/156250 := by
    show 99/10 * (2/10) + gseq 5 * (8/10) = 1141371/156250
    rw [e5]; norm_num
  have e7 : gseq 7 = 6112359/781250 := by
    show 99/10 * (2/10) + gseq 6 * (8/10) = 6112359/781250
    rw [e6]; norm_num
  have e8 : gseq 8 = 32183811/3906250 := by
    show 99/10 * (2/10) + gseq 7 * (8/10) = 32183811/3906250
    rw [e7]; norm_num
  show 99/10 * (2/10) + gseq 8 * (8/10) = 167407119/19531250
  rw [e8]; norm_num

/-- Processing the spike beacon after the nine readings: the smoothed
speed 0.2 × 20 + 0.8 × gseq 9 ≈ 10.86 crosses the threshold 10 and a
Takeoff is emitted. -/
theorem spike_takeoff :
    processBeacon env10 (mkB 10 20) (cstate 9) =
      { store := saveToRedis
          (saveToRedis (cstate 9).store "A1-gs"
            (RVal.gs (20 * (2/10) + gseq 9 * (8/10))) 120)
          "A1-status" (RVal.status ⟨10, 1⟩) 3600
        sink := [⟨10, "A1", 2, 1, 'T', 49, 16, "LKKA", 0⟩] } := by
  have hgs : getGs (cstate 9).store ((mkB 10 20).address ++ "-gs")
      = gseq 9 := cstate_gs 9
  have hc : classify env10 (mkB 10 20).aircraftType
      ((mkB 10 20).groundSpeed * (2/10)
        + getGs (cstate 9).store ((mkB 10 20).address ++ "-gs") * (8/10))
      = 1 := by
    rw [hgs, gseq_nine]
    show (if (20 : Rat) * (2/10) + 167407119/19531250 * (8/10) < 10
      then (0 : Int) else 1) = 1
    rw [if_neg (by norm_num)]
  have h := processBeacon_takeoff env10 (mkB 10 20) (cstate 9) ⟨0, 0⟩
    "LKKA" (cstate_status 9) rfl hc (by decide)
  rw [h, hgs, cstate_sink 9]
  rfl

/-- C6 counterexample: with threshold 10, an address with stored prior
status Ground, nine processed beacons with raw speed 9.9 (below the
threshold) followed by one beacon with raw speed 20 (twice the
threshold), the smoothed classification does become Airborne on the
spike sample and a Takeoff event is emitted: single-sample outliers are
not always dampened. -/
theorem spike_not_dampened :
    spikeRun.sink = [⟨10, "A1", 2, 1, 'T', 49, 16, "LKKA", 0⟩]
    ∧ getStatus spikeRun.store "A1-status" = some ⟨10, 1⟩ := by
  have s0 : processBeacon env10 (mkB 1 (99/10)) stGround = cstate 1 :=
    cstate_step 0 1
  have s1 : processBeacon env10 (mkB 2 (99/10)) (cstate 1) = cstate 2 :=
    cstate_step 1 2
  have s2 : processBeacon env10 (mkB 3 (99/10)) (cstate 2) = cstate 3 :=
    cstate_step 2 3
  have s3 : processBeacon env10 (mkB 4 (99/10)) (cstate 3) = cstate 4 :=
    cstate_step 3 4
  have s4 : processBeacon env10 (mkB 5 (99/10)) (cstate 4) = cstate 5 :=
    cstate_step 4 5
  have s5 : processBeacon env10 (mkB 6 (99/10)) (cstate 5) = cstate 6 :=
    cstate_step 5 6
  have s6 : processBeacon env10 (mkB 7 (99/10)) (cstate 6) = cstate 7 :=
    cstate_step 6 7
  have s7 : processBeacon env10 (mkB 8 (99/10)) (cstate 7) = cstate 8 :=
    cstate_step 7 8
  have s8 : processBeacon env10 (mkB 9 (99/10)) (cstate 8) = cstate 9 :=
    cstate_step 8 9
  have hrun : spikeRun = processBeacon env10 (mkB 10 20) (cstate 9) := by
    show List.foldl _ stGround _ = _
    simp only [List.foldl]
    rw [s0, s1, s2, s3, s4, s5, s6, s7, s8]
  rw [hrun, spike_takeoff]
  exact ⟨rfl, rfl⟩

/-- C6 amended: a lone spike to twice the threshold is dampened exactly
while the prior smoothed speed is below 0.75 × threshold; under that
bound the classification stays Ground and nothing is emitted. -/
theorem spike_dampened_below_three_quarter (env : Env) (b : Beacon)
    (st : PState) (prev : Status)
    (hs : getStatus st.store (b.address ++ "-status") = some prev)
    (hprev : prev.s = 0)
    (hgs : getGs st.store (b.address ++ "-gs")
      < 3/4 * env.threshold b.aircraftType)
    (hspike : b.groundSpeed = 2 * env.threshold b.aircraftType) :
    (processBeacon env b st).sink = st.sink
    ∧ (processBeacon env b st).store (b.address ++ "-status")
        = st.store (b.address ++ "-status") := by
  have hc : classify env b.aircraftType
      (b.groundSpeed * (2/10) + getGs st.store (b.address ++ "-gs") * (8/10))
      = prev.s := by
    rw [hprev]
    unfold classify
    rw [if_pos (by rw [hspike]; linarith)]
  rw [processBeacon_no_transition env b st prev hs hc]
  exact ⟨rfl, saveToRedis_other _ _ _ _ _ (statusKey_ne_gsKey b.address)⟩

/-! ## Lifecycle lemmas (claim C7) -/

theorem flushQueue_apply (r : RQueueStore) (k : String)
    (items : List String) (q : String) :
    flushQueue r k items q = if q = k then r q ++ items else r q := by
  induction items generalizing r with
  | nil =>
      show r q = _
      by_cases h : q = k <;> simp [h]
  | cons it rest ih =>
      show flushQueue (rpush r k it) k rest q = _
      rw [ih]
      by_cases h : q = k <;> simp [rpush, h]

theorem drainLoop_no_empty :
    ∀ (l acc : List String), "" ∉ l → drainLoop l acc = (acc ++ l, []) := by
  intro l
  induction l with
  | nil => intro acc _; simp [drainLoop]
  | cons it rest ih =>
      intro acc h
      have h1 : ¬(it = "") := by
        intro he
        exact h (by rw [he]; exact List.mem_cons_self _ _)
      have h2 : "" ∉ rest := fun hm => h (List.mem_cons_of_mem _ hm)
      show (if it = "" then (acc, rest) else drainLoop rest (acc ++ [it])) = _
      rw [if_neg h1, ih (acc ++ [it]) h2]
      simp

/-- C7 amended: when the Redis lists of the three shard keys start
empty and no queued raw message is the empty string, the
restore-after-snapshot round trip is the identity on the in-memory
shard queues. -/
theorem snapshot_restore_roundtrip (qs : Queues) (r : RQueueStore)
    (hogn : r "rawQueueOGN" = []) (hflr : r "rawQueueFLR" = [])
    (hica : r "rawQueueICA" = [])
    (nogn : "" ∉ qs.ogn) (nflr : "" ∉ qs.flr) (nica : "" ∉ qs.ica) :
    (restoreStartup (stopSnapshot qs r)).1 = qs := by
  have h1 : stopSnapshot qs r "rawQueueOGN" = qs.ogn := by
    unfold stopSnapshot
    rw [flushQueue_apply, flushQueue_apply, flushQueue_apply]
    rw [if_neg (by decide), if_neg (by decide), if_pos rfl, hogn]
    simp
  have h2 : stopSnapshot qs r "rawQueueFLR" = qs.flr := by
    unfold stopSnapshot
    rw [flushQueue_apply, flushQueue_apply, flushQueue_apply]
    rw [if_neg (by decide), if_pos rfl, if_neg (by decide), hflr]
    simp
  have h3 : stopSnapshot qs r "rawQueueICA" = qs.ica := by
    unfold stopSnapshot
    rw [flushQueue_apply, flushQueue_apply, flushQueue_apply]
    rw [if_pos rfl, if_neg (by decide), if_neg (by decide), hica]
    simp
  show (⟨(drainLoop (stopSnapshot qs r "rawQueueOGN") []).1,
        (drainLoop (stopSnapshot qs r "rawQueueFLR") []).1,
        (drainLoop (stopSnapshot qs r "rawQueueICA") []).1⟩ : Queues) = qs
  rw [h1, h2, h3, drainLoop_no_empty _ _ nogn, drainLoop_no_empty _ _ nflr,
    drainLoop_no_empty _ _ nica]
  simp

/-! ## Worker-loop lemmas (claim C8) -/

/-- When the airfield lookup yields nothing, no event is appended. -/
theorem processBeacon_sink_no_airfield (env : Env) (b : Beacon)
    (st : PState) (h : env.getNearest b.lat b.lon = none) :
    (processBeacon env b st).sink = st.sink := by
  simp only [processBeacon, h]
  repeat' split
  all_goals rfl

/-- C8: the worker loop exits exactly on the stop signal
(`doRun = false`); a message whose decode raises is dropped with no
other effect and the loop continues; a decoded message whose airfield
lookup fails is dropped without appending an event and the loop
continues. -/
theorem worker_loop_robust :
    (∀ (env : Env) (w : WState),
      workerStep env w = none ↔ w.doRun = false)
    ∧ (∀ (env : Env) (w : WState) (m : String) (rest : List String),
      w.doRun = true → w.queue = m :: rest →
      env.parse m = ParseResult.failure →
      workerStep env w = some { w with queue := rest })
    ∧ (∀ (env : Env) (w : WState) (m : String) (rest : List String)
        (b : Beacon),
      w.doRun = true → w.queue = m :: rest →
      env.parse m = ParseResult.ok b →
      env.getNearest b.lat b.lon = none →
      workerStep env w
          = some { w with queue := rest, ps := processMessage env m w.ps }
        ∧ (processMessage env m w.ps).sink = w.ps.sink) := by
  refine ⟨?_, ?_, ?_⟩
  · intro env w
    unfold workerStep
    cases h : w.doRun <;> simp
  · intro env w m rest hrun hq hp
    unfold workerStep
    rw [hq]
    simp only [hrun, if_true]
    simp [processMessage, hp]
  · intro env w m rest b hrun hq hp hnear
    constructor
    · unfold workerStep
      rw [hq]
      simp only [hrun, if_true]
    · show (processMessage env m w.ps).sink = w.ps.sink
      unfold processMessage
      rw [hp]
      by_cases ha : aircraftTypeAllowed b.aircraftType
      · simp only [ha, if_true]
        exact processBeacon_sink_no_airfield env b w.ps hnear
      · simp [ha]

/-! ## Stats reporter (claim C9) -/

/-- C9: once at least 60 s have elapsed since the window start, the
reporter resets the window (start time to now, counter to 0), computes
throughput `count / elapsed × 60` and backlog as the sum of the three
shard queue depths, and publishes the pair exactly when the backlog is
at least 400; below 400 nothing is published. -/
theorem stats_window_alert (now : Rat) (qOgn qFlr qIca : Nat)
    (s : StatsState) (h : 60 ≤ now - s.startTime) :
    printStats now qOgn qFlr qIca s
      = (⟨now, 0⟩,
         if 400 ≤ qOgn + qFlr + qIca then
           some ((s.numEnquedTasks : Rat) / (now - s.startTime) * 60,
             qOgn + qFlr + qIca)
         else none) := by
  unfold printStats
  rw [if_pos h]
  by_cases hq : 400 ≤ qOgn + qFlr + qIca
  · rw [if_pos hq, if_pos hq]
  · rw [if_neg hq, if_neg hq]

/-- C7 counterexample: a shard queue holding the raw messages
`["", "x"]` at shutdown is restored as the empty queue — `lpop` returns
the empty string, which is falsy, so the restore loop stops after
popping it, dropping it for good and leaving `"x"` behind in the
store — so the round trip is not the identity. -/
theorem roundtrip_drops_empty_message :
    (restoreStartup (stopSnapshot ⟨["", "x"], [], []⟩ (fun _ => []))).1
        = (⟨[], [], []⟩ : Queues)
    ∧ (restoreStartup (stopSnapshot ⟨["", "x"], [], []⟩ (fun _ => []))).2
        "rawQueueOGN" = ["x"] := by decide

/-! ## Concrete instances for the witnesses -/

/-- The empty processing state. -/
def stEmpty : PState := { store := fun _ => none, sink := [] }

/-- A store holding only the prior status `Airborne` at time 0 for
`A1`. -/
def stAir : PState :=
  { store := fun k =>
      if k = "A1-status" then some (RVal.status ⟨0, 1⟩, 3600) else none
    sink := [] }

/-- `env10` with a parser that recognises two raw messages. -/
def envMsg : Env :=
  { env10 with parse := fun s =>
      if s = "mB" then ParseResult.ok (mkB 0 0)
      else if s = "mL" then ParseResult.ok (mkB 200 0)
      else ParseResult.failure }

/-- An environment whose airfield lookup always fails. -/
def envNone : Env :=
  { parse := fun _ => ParseResult.ok (mkB 10 100)
    threshold := fun _ => 10
    getNearest := fun _ _ => none
    getElevation := fun _ _ => 0
    recordExpiration := 3600 }

/-! ## Witnesses -/

theorem transition_persistence_witness :
    ((processBeacon env10 (mkB 10 100) stGround).store ("A1" ++ "-status")
        = some (RVal.status ⟨10, 1⟩, env10.recordExpiration)
      ∧ (processBeacon env10 (mkB 10 100) stGround).sink
        = stGround.sink ++ [⟨10, "A1", 2, 1, 'T', 49, 16, "LKKA", 0⟩])
    ∧ ((processBeacon env10 (mkB 200 0) stAir).store ("A1" ++ "-status")
        = none
      ∧ (processBeacon env10 (mkB 200 0) stAir).sink
        = stAir.sink ++ [⟨200, "A1", 2, 1, 'L', 49, 16, "LKKA", 200 - 0⟩]) :=
  ⟨(transition_persistence env10 (mkB 10 100) stGround ⟨0, 0⟩ "LKKA"
      rfl rfl).1
    (by unfold classify
        rw [show getGs stGround.store ((mkB 10 100).address ++ "-gs") = 0
          from rfl]
        norm_num [mkB, env10])
    (by decide),
   (transition_persistence env10 (mkB 200 0) stAir ⟨0, 1⟩ "LKKA"
      rfl rfl).2
    (by unfold classify
        rw [show getGs stAir.store ((mkB 200 0).address ++ "-gs") = 0
          from rfl]
        norm_num [mkB, env10])
    (by decide) (by decide)
    (by norm_num [mkB, env10])⟩

theorem landing_min_duration_witness :
    (120 : Int)
      ≤ (⟨200, "A1", 2, 1, 'L', 49, 16, "LKKA", 200 - 0⟩
          : LogbookEvent).flightTime := by
  have hsink : (processAll envMsg ["mL"] stAir).sink
      = [⟨200, "A1", 2, 1, 'L', 49, 16, "LKKA", 200 - 0⟩] := by
    show (processMessage envMsg "mL" stAir).sink = _
    have hpm : processMessage envMsg "mL" stAir
        = processBeacon envMsg (mkB 200 0) stAir := rfl
    rw [hpm, processBeacon_landing envMsg (mkB 200 0) stAir ⟨0, 1⟩ "LKKA"
      rfl rfl
      (by unfold classify
          rw [show getGs stAir.store ((mkB 200 0).address ++ "-gs") = 0
            from rfl]
          norm_num [mkB, envMsg, env10])
      (by decide) (by decide)
      (by norm_num [mkB, envMsg, env10])]
    rfl
  exact landing_min_duration envMsg ["mL"] stAir (by simp [stAir]) _
    (by rw [hsink]; simp) rfl

theorem landing_agl_gate_witness :
    (mkB 200 0).altitude
      - env10.getElevation (mkB 200 0).lat (mkB 200 0).lon ≤ 150 := by
  apply landing_agl_gate env10 (mkB 200 0) stAir
    ⟨200, "A1", 2, 1, 'L', 49, 16, "LKKA", 200 - 0⟩ ?_ rfl
  rw [processBeacon_landing env10 (mkB 200 0) stAir ⟨0, 1⟩ "LKKA"
    rfl rfl
    (by unfold classify
        rw [show getGs stAir.store ((mkB 200 0).address ++ "-gs") = 0
          from rfl]
        norm_num [mkB, env10])
    (by decide) (by decide)
    (by norm_num [mkB, env10])]
  rfl

theorem firstObservation_baseline_witness :
    (processMessage envMsg "mB" stEmpty).store ("A1" ++ "-status")
        = some (RVal.status ⟨0, 0⟩, envMsg.recordExpiration)
    ∧ (processMessage envMsg "mB" stEmpty).store ("A1" ++ "-gs")
        = stEmpty.store ("A1" ++ "-gs")
    ∧ (processMessage envMsg "mB" stEmpty).sink = stEmpty.sink :=
  firstObservation_baseline envMsg "mB" (mkB 0 0) stEmpty rfl rfl rfl

theorem smoothing_update_witness :
    ((processBeacon env10 (mkB 5 8) stGround).store ("A1" ++ "-gs")
        = some (RVal.gs (8 * (2/10)
            + getGs stGround.store ("A1" ++ "-gs") * (8/10)), 120))
    ∧ ((processBeacon env10 (mkB 5 8) stGround).store ("A1" ++ "-gs")
        = some (RVal.gs (8 * (2/10) + 0 * (8/10)), 120))
    ∧ ((processBeacon env10 (mkB 5 8) stGround).sink = stGround.sink
        ∧ (processBeacon env10 (mkB 5 8) stGround).store ("A1" ++ "-status")
            = stGround.store ("A1" ++ "-status")) := by
  obtain ⟨h1, h2, h3, _⟩ :=
    smoothing_update env10 (mkB 5 8) stGround ⟨0, 0⟩ rfl
  exact ⟨h1, h2 rfl, h3 (by
    unfold classify
    rw [show getGs stGround.store ((mkB 5 8).address ++ "-gs") = 0 from rfl]
    norm_num [mkB, env10])⟩

theorem spike_dampened_witness :
    (processBeacon env10 (mkB 5 20) stGround).sink = stGround.sink
    ∧ (processBeacon env10 (mkB 5 20) stGround).store ("A1" ++ "-status")
        = stGround.store ("A1" ++ "-status") :=
  spike_dampened_below_three_quarter env10 (mkB 5 20) stGround ⟨0, 0⟩
    rfl rfl
    (by rw [show getGs stGround.store ((mkB 5 20).address ++ "-gs") = 0
          from rfl]
        norm_num [mkB, env10])
    (by norm_num [mkB, env10])

theorem snapshot_restore_roundtrip_witness :
    (restoreStartup (stopSnapshot ⟨["a"], ["b"], []⟩ (fun _ => []))).1
      = (⟨["a"], ["b"], []⟩ : Queues) :=
  snapshot_restore_roundtrip ⟨["a"], ["b"], []⟩ (fun _ => []) rfl rfl rfl
    (by decide) (by decide) (by decide)

theorem worker_loop_robust_witness :
    (workerStep envMsg ⟨false, [], stEmpty⟩ = none)
    ∧ (workerStep envMsg ⟨true, ["zz"], stEmpty⟩
        = some ⟨true, [], stEmpty⟩)
    ∧ (workerStep envNone ⟨true, ["x"], stGround⟩
        = some ⟨true, [], processMessage envNone "x" stGround⟩
       ∧ (processMessage envNone "x" stGround).sink = stGround.sink) :=
  ⟨(worker_loop_robust.1 envMsg ⟨false, [], stEmpty⟩).mpr rfl,
   worker_loop_robust.2.1 envMsg ⟨true, ["zz"], stEmpty⟩ "zz" [] rfl rfl rfl,
   worker_loop_robust.2.2 envNone ⟨true, ["x"], stGround⟩ "x" []
     (mkB 10 100) rfl rfl rfl rfl⟩

theorem stats_window_alert_witness :
    printStats 60 200 100 100 ⟨0, 30⟩
      = (⟨60, 0⟩,
         if 400 ≤ 200 + 100 + 100 then
           some (((30 : Nat) : Rat) / ((60 : Rat) - 0) * 60,
             200 + 100 + 100)
         else none) :=
  stats_window_alert 60 200 100 100 ⟨0, 30⟩
    (by show (60 : Rat) ≤ 60 - 0; norm_num)

theorem discard_frame_witness :
    (processBeacon envNone (mkB 10 100) stGround).store ("A1" ++ "-status")
        = stGround.store ("A1" ++ "-status")
    ∧ (processBeacon envNone (mkB 10 100) stGround).sink = stGround.sink
    ∧ (processBeacon envNone (mkB 10 100) stGround).store ("A1" ++ "-gs")
        = some (RVal.gs (100 * (2/10)
            + getGs stGround.store ("A1" ++ "-gs") * (8/10)), 120) :=
  discard_frame envNone (mkB 10 100) stGround ⟨0, 0⟩ rfl
    (by unfold classify
        rw [show getGs stGround.store ((mkB 10 100).address ++ "-gs") = 0
          from rfl]
        norm_num [mkB, envNone])
    (Or.inl rfl)

end OgnLogbook
